import Mathlib

/-
Verification of the Arc-Halo data-access layer.

This file is a shallow embedding of `db/scripts/db_utils.py` and
`db/scripts/test_connection.py`.  Database tables are modelled as lists of
rows; a connection checkout is modelled by an explicit system state holding
the committed database and the number of free pooled connections.  Each SQL
statement issued by the repository classes is a constructor of `Stmt`, and
`execStmt` gives its semantics on a (transaction-local) database state,
including the driver-level error raised by a `::uuid` cast on a malformed
identifier.  `execute_query` runs a statement without ever committing (the
pool's putconn resets the connection, discarding the open transaction),
while `execute_command` commits on success and rolls back on failure.
-/

namespace ArcHalo

/-- A row of the external `models` table, as consumed by `db_utils.py`
(identifier, name, type, serialized architecture configuration, version,
status, creation timestamp).  Timestamps are modelled as naturals. -/
structure ModelRow where
  model_id : String
  model_name : String
  model_type : String
  architecture_config : String
  version : String
  status : String
  created_at : Nat
  deriving Repr, DecidableEq

/-- A row of the external `tensor_metadata` table. -/
structure TensorMetaRow where
  tensor_id : String
  tensor_name : String
  tensor_type : String
  model_id : String
  shape : List Int
  dtype : String
  total_elements : Int
  deriving Repr, DecidableEq

/-- A row of the external `tensor_data` table: a binary chunk (bytes are
modelled as naturals) keyed by (tensor identifier, chunk index). -/
structure TensorDataRow where
  tensor_id : String
  chunk_index : Int
  data_blob : List Nat
  chunk_size : Nat
  deriving Repr, DecidableEq

/-- A row of the external `cognitive_fusion_reactors` table. -/
structure ReactorRow where
  reactor_id : String
  reactor_name : String
  reactor_type : String
  fusion_strategy : String
  deriving Repr, DecidableEq

/-- A row of the external `reactor_models` link table.  The fusion weight is
modelled as a rational number. -/
structure ReactorModelRow where
  reactor_id : String
  model_id : String
  model_role : String
  weight : ℚ
  deriving Repr, DecidableEq

/-- A row of the external view `v_reactor_status`.  The view is produced
outside this repository; only the reactor identifier and the active-model
count consulted by the example script are modelled. -/
structure ReactorStatusRow where
  reactor_id : String
  active_models : Nat
  deriving Repr, DecidableEq

/-- The committed database state: the tables and the view consumed by
`db_utils.py`. -/
structure DB where
  models : List ModelRow
  tensor_metadata : List TensorMetaRow
  tensor_data : List TensorDataRow
  cognitive_fusion_reactors : List ReactorRow
  reactor_models : List ReactorModelRow
  v_reactor_status : List ReactorStatusRow
  deriving Repr, DecidableEq

/-- Driver-level (psycopg2) error surfaced to the caller.  `invalidUuid`
models the PostgreSQL invalid-text-representation error raised by a
`::uuid` cast on a malformed identifier. -/
inductive PgError where
  | invalidUuid : String → PgError
  deriving Repr, DecidableEq

/-- Server-side context for one statement execution: the fresh identifier the
server would generate for an inserted row, and the current server time. -/
structure ServerCtx where
  fresh_uuid : String
  current_time : Nat
  deriving Repr, DecidableEq

/-- A result row as returned to Python (a `RealDictCursor` mapping).  Each
constructor corresponds to one shape of result dictionary produced by the
statements in `db_utils.py`. -/
inductive Row where
  | modelIdField : String → Row
  | tensorIdField : String → Row
  | reactorIdField : String → Row
  | model : ModelRow → Row
  | reactorStatus : ReactorStatusRow → Row
  deriving Repr, DecidableEq

/-- Hexadecimal digit test, used by the UUID well-formedness check. -/
def isHexDigit (c : Char) : Bool :=
  (('0' ≤ c && c ≤ '9') || ('a' ≤ c && c ≤ 'f') || ('A' ≤ c && c ≤ 'F'))

/-- Well-formedness of a textual UUID in the canonical 8-4-4-4-12 form, as
accepted by the PostgreSQL `uuid` input routine for that form: 36
characters, hyphens at positions 8, 13, 18 and 23, hex digits elsewhere. -/
def isValidUuid (s : String) : Bool :=
  let cs := s.toList
  cs.length == 36 &&
    (List.range 36).all (fun i =>
      if i == 8 || i == 13 || i == 18 || i == 23 then cs.getD i ' ' == '-'
      else isHexDigit (cs.getD i ' '))

/-- Default value of the `status` column of `models`.  The schema is owned
outside this repository; the concrete default value is irrelevant to every
property proved below, only that inserted rows carry some status. -/
def model_status_default : String := "created"

/-- Key comparison used by the `tensor_data` unique constraint
(tensor identifier, chunk index). -/
def keyEq (r : TensorDataRow) (tid : String) (k : Int) : Bool :=
  r.tensor_id == tid && r.chunk_index == k

/-- Semantics of `INSERT ... ON CONFLICT (tensor_id, chunk_index) DO UPDATE`:
if a row with the same key exists it is replaced in place, otherwise the new
row is appended. -/
def upsertChunk (row : TensorDataRow) : List TensorDataRow → List TensorDataRow
  | [] => [row]
  | r :: rs =>
    if keyEq r row.tensor_id row.chunk_index then
      row :: rs
    else
      r :: upsertChunk row rs

/-- Descending creation-time order used by `ORDER BY created_at DESC`. -/
def createdDesc (a b : ModelRow) : Prop :=
  b.created_at ≤ a.created_at

instance : DecidableRel createdDesc :=
  fun a b => Nat.decLe b.created_at a.created_at

instance : IsTotal ModelRow createdDesc :=
  ⟨fun a b => Nat.le_total b.created_at a.created_at⟩

instance : IsTrans ModelRow createdDesc :=
  ⟨fun _ _ _ h1 h2 => Nat.le_trans h2 h1⟩

/-- The SQL statements issued by the repository classes in `db_utils.py`,
with their parameters.  Server-generated values (fresh identifier, current
time) come from the `ServerCtx` at execution. -/
inductive Stmt where
  | insertModel : String → String → String → String → Stmt
  | selectModelById : String → Stmt
  | selectModelsByStatus : String → Stmt
  | selectAllModels : Stmt
  | insertTensorMeta : String → String → String → List Int → String → Int → Stmt
  | upsertTensorData : String → Int → List Nat → Nat → Stmt
  | insertReactor : String → String → String → Stmt
  | insertReactorModel : String → String → String → ℚ → Stmt
  | selectReactorStatus : String → Stmt
  deriving Repr, DecidableEq

/-- Execution of one statement on a transaction-local database state:
returns the updated state, the fetched rows and the affected-row count, or
the driver error raised by a `::uuid` cast on a malformed identifier. -/
def execStmt (ctx : ServerCtx) (stmt : Stmt) (db : DB) :
    Except PgError (DB × List Row × Nat) :=
  match stmt with
  | .insertModel name mtype cfg version =>
    let row : ModelRow :=
      { model_id := ctx.fresh_uuid, model_name := name, model_type := mtype,
        architecture_config := cfg, version := version,
        status := model_status_default, created_at := ctx.current_time }
    .ok ({ db with models := db.models ++ [row] }, [.modelIdField ctx.fresh_uuid], 1)
  | .selectModelById mid =>
    if isValidUuid mid then
      let rows := (db.models.filter (fun r => r.model_id == mid)).map Row.model
      .ok (db, rows, rows.length)
    else
      .error (.invalidUuid mid)
  | .selectModelsByStatus st =>
    let sorted := List.insertionSort createdDesc (db.models.filter (fun r => r.status == st))
    .ok (db, sorted.map Row.model, sorted.length)
  | .selectAllModels =>
    let sorted := List.insertionSort createdDesc db.models
    .ok (db, sorted.map Row.model, sorted.length)
  | .insertTensorMeta name ttype mid shape dtype total =>
    if isValidUuid mid then
      let row : TensorMetaRow :=
        { tensor_id := ctx.fresh_uuid, tensor_name := name, tensor_type := ttype,
          model_id := mid, shape := shape, dtype := dtype, total_elements := total }
      .ok ({ db with tensor_metadata := db.tensor_metadata ++ [row] },
        [.tensorIdField ctx.fresh_uuid], 1)
    else
      .error (.invalidUuid mid)
  | .upsertTensorData tid k blob size =>
    if isValidUuid tid then
      let row : TensorDataRow :=
        { tensor_id := tid, chunk_index := k, data_blob := blob, chunk_size := size }
      .ok ({ db with tensor_data := upsertChunk row db.tensor_data }, [], 1)
    else
      .error (.invalidUuid tid)
  | .insertReactor name rtype strategy =>
    let row : ReactorRow :=
      { reactor_id := ctx.fresh_uuid, reactor_name := name, reactor_type := rtype,
        fusion_strategy := strategy }
    .ok ({ db with cognitive_fusion_reactors := db.cognitive_fusion_reactors ++ [row] },
      [.reactorIdField ctx.fresh_uuid], 1)
  | .insertReactorModel rid mid role weight =>
    if isValidUuid rid then
      if isValidUuid mid then
        let row : ReactorModelRow :=
          { reactor_id := rid, model_id := mid, model_role := role, weight := weight }
        .ok ({ db with reactor_models := db.reactor_models ++ [row] }, [], 1)
      else
        .error (.invalidUuid mid)
    else
      .error (.invalidUuid rid)
  | .selectReactorStatus rid =>
    if isValidUuid rid then
      let rows := (db.v_reactor_status.filter (fun r => r.reactor_id == rid)).map Row.reactorStatus
      .ok (db, rows, rows.length)
    else
      .error (.invalidUuid rid)

/-- System state threaded through `NeonDBConnection`: the committed database
and the number of free connections in the pool. -/
structure SysState where
  committed : DB
  freeConns : Nat
  deriving Repr, DecidableEq

/-- `NeonDBConnection.get_connection`: checks a connection out of the pool. -/
def get_connection (s : SysState) : SysState :=
  { s with freeConns := s.freeConns - 1 }

/-- `NeonDBConnection.return_connection` / `pool.putconn`: returns the
connection (resetting any open, uncommitted transaction). -/
def return_connection (s : SysState) : SysState :=
  { s with freeConns := s.freeConns + 1 }

/-- `NeonDBConnection.execute_query`: acquire a connection, run the statement
on a transaction view of the committed state, fetch all rows, and in a
`finally` block return the connection.  There is no commit, so the pending
transaction state is discarded when the connection is returned, and a driver
error propagates to the caller unchanged. -/
def execute_query (ctx : ServerCtx) (s : SysState) (stmt : Stmt) :
    SysState × Except PgError (List Row) :=
  let s1 := get_connection s
  match execStmt ctx stmt s1.committed with
  | .ok (_pending, rows, _) => (return_connection s1, .ok rows)
  | .error e => (return_connection s1, .error e)

/-- `NeonDBConnection.execute_command`: acquire a connection, run the
statement, commit on success and return the affected-row count; on failure
roll back (the committed state is untouched) and re-raise the same error;
in both cases the connection is returned in a `finally` block. -/
def execute_command (ctx : ServerCtx) (s : SysState) (stmt : Stmt) :
    SysState × Except PgError Nat :=
  let s1 := get_connection s
  match execStmt ctx stmt s1.committed with
  | .ok (db2, _rows, n) => (return_connection { s1 with committed := db2 }, .ok n)
  | .error e => (return_connection s1, .error e)

/-- Python truthiness of an `Optional[str]`: `None` and the empty string are
falsy, every other string is truthy. -/
def pyTruthyStr : Option String → Bool
  | none => false
  | some s => !(s == "")

/-- Python `a or b` on `Optional[str]` values: the first operand if truthy,
otherwise the second. -/
def pyOrStr (a b : Option String) : Option String :=
  if pyTruthyStr a then a else b

/-- The connection-pool manager object produced by a successful
`NeonDBConnection.__init__`: the resolved connection string and the pool
bounds passed to `ThreadedConnectionPool`. -/
structure NeonDB where
  connection_string : String
  minconn : Nat
  maxconn : Nat
  deriving Repr, DecidableEq

/-- The configuration error raised by `NeonDBConnection.__init__` when no
connection string is available (`ValueError` in the source). -/
inductive InitError where
  | missingConnectionString
  deriving Repr, DecidableEq

namespace NeonDBConnection

/-- `NeonDBConnection.__init__`: resolve the connection string as
`connection_string or os.getenv(NEON_DATABASE_URL)`; if the result is falsy
raise the configuration error before any pool exists, otherwise create the
pool with `minconn=1, maxconn=20`. -/
def init (connection_string : Option String) (env_NEON_DATABASE_URL : Option String) :
    Except InitError NeonDB :=
  let cs := pyOrStr connection_string env_NEON_DATABASE_URL
  if pyTruthyStr cs = false then
    .error .missingConnectionString
  else
    .ok { connection_string := cs.getD "", minconn := 1, maxconn := 20 }

end NeonDBConnection

/-- `result[0]['model_id']` on the rows returned by the model INSERT;
`none` models the (unreachable on this code path) Python `IndexError`. -/
def firstModelId : List Row → Option String
  | .modelIdField mid :: _ => some mid
  | _ => none

/-- `result[0]['tensor_id']` on the rows returned by the tensor INSERT. -/
def firstTensorId : List Row → Option String
  | .tensorIdField tid :: _ => some tid
  | _ => none

/-- `result[0]['reactor_id']` on the rows returned by the reactor INSERT. -/
def firstReactorId : List Row → Option String
  | .reactorIdField rid :: _ => some rid
  | _ => none

namespace ModelRepository

/-- `ModelRepository.create_model`: issue the model INSERT (with the
architecture configuration already serialized by `json.dumps`) through
`execute_query` and extract the returned identifier. -/
def create_model (ctx : ServerCtx) (s : SysState)
    (model_name model_type architecture_config_json version : String) :
    SysState × Except PgError (Option String) :=
  let r := execute_query ctx s
    (.insertModel model_name model_type architecture_config_json version)
  (r.1, r.2.map firstModelId)

/-- `ModelRepository.get_model`: select by identifier (cast to `uuid` in the
statement) and return `results[0] if results else None`. -/
def get_model (ctx : ServerCtx) (s : SysState) (model_id : String) :
    SysState × Except PgError (Option Row) :=
  let r := execute_query ctx s (.selectModelById model_id)
  (r.1, r.2.map List.head?)

/-- `ModelRepository.list_models`: if the status argument is truthy, select
with a status filter, else select all rows; both ordered by creation time
descending. -/
def list_models (ctx : ServerCtx) (s : SysState) (status : Option String) :
    SysState × Except PgError (List Row) :=
  if pyTruthyStr status then
    execute_query ctx s (.selectModelsByStatus (status.getD ""))
  else
    execute_query ctx s .selectAllModels

end ModelRepository

/-- The total-element computation in `TensorRepository.create_tensor`:
`total_elements = 1` then `total_elements *= dim` over the shape. -/
def totalElements (shape : List Int) : Int :=
  shape.foldl (fun acc dim => acc * dim) 1

namespace TensorRepository

/-- The INSERT statement built by `TensorRepository.create_tensor`, carrying
the computed total element count. -/
def create_tensor_stmt (tensor_name tensor_type model_id : String)
    (shape : List Int) (dtype : String) : Stmt :=
  .insertTensorMeta tensor_name tensor_type model_id shape dtype (totalElements shape)

/-- `TensorRepository.create_tensor`: compute the total element count, issue
the metadata INSERT through `execute_query`, and extract the identifier. -/
def create_tensor (ctx : ServerCtx) (s : SysState)
    (tensor_name tensor_type model_id : String) (shape : List Int) (dtype : String) :
    SysState × Except PgError (Option String) :=
  let r := execute_query ctx s (create_tensor_stmt tensor_name tensor_type model_id shape dtype)
  (r.1, r.2.map firstTensorId)

/-- `TensorRepository.store_tensor_data`: upsert the chunk through
`execute_command`, recording `len(data)` alongside the payload. -/
def store_tensor_data (ctx : ServerCtx) (s : SysState)
    (tensor_id : String) (data : List Nat) (chunk_index : Int) :
    SysState × Except PgError Nat :=
  execute_command ctx s (.upsertTensorData tensor_id chunk_index data data.length)

end TensorRepository

namespace ReactorRepository

/-- `ReactorRepository.create_reactor`: issue the reactor INSERT through
`execute_query` and extract the identifier. -/
def create_reactor (ctx : ServerCtx) (s : SysState)
    (reactor_name reactor_type fusion_strategy : String) :
    SysState × Except PgError (Option String) :=
  let r := execute_query ctx s (.insertReactor reactor_name reactor_type fusion_strategy)
  (r.1, r.2.map firstReactorId)

/-- `ReactorRepository.add_model_to_reactor`: plain INSERT into the link
table through `execute_command`. -/
def add_model_to_reactor (ctx : ServerCtx) (s : SysState)
    (reactor_id model_id model_role : String) (weight : ℚ) :
    SysState × Except PgError Nat :=
  execute_command ctx s (.insertReactorModel reactor_id model_id model_role weight)

/-- `ReactorRepository.get_reactor_status`: select from `v_reactor_status` by
identifier (cast to `uuid`) and return `results[0] if results else None`. -/
def get_reactor_status (ctx : ServerCtx) (s : SysState) (reactor_id : String) :
    SysState × Except PgError (Option Row) :=
  let r := execute_query ctx s (.selectReactorStatus reactor_id)
  (r.1, r.2.map List.head?)

end ReactorRepository

/-- The visible database surface consulted by `test_connection.py`: whether
connecting succeeds, and the installed extensions, tables, views and
functions. -/
structure PgEnv where
  connectable : Bool
  extensions : List String
  tables : List String
  views : List String
  functions : List String
  deriving Repr, DecidableEq

/-- The required-table list hard-coded in `test_tables`. -/
def required_tables : List String :=
  ["models", "transformer_layers", "attention_heads", "tensor_metadata",
   "tensor_data", "model_weights", "embeddings", "training_sessions",
   "training_metrics", "optimizer_state", "model_checkpoints",
   "gradient_checkpoints", "inference_sessions", "activation_cache",
   "kv_cache", "inference_metrics", "attention_patterns",
   "cognitive_fusion_reactors", "reactor_models", "fusion_operations",
   "model_interaction_graph", "cognitive_state", "reactor_metrics"]

/-- The view list hard-coded in `test_views` (missing views only warn). -/
def required_views : List String :=
  ["v_model_architecture", "v_training_progress", "v_reactor_status"]

namespace TestConnection

/-- `test_connection`: succeeds exactly when connecting succeeds. -/
def test_connection (env : PgEnv) : Bool :=
  env.connectable

/-- `test_extensions`: fails when the connection fails or the required
`uuid-ossp` extension is absent. -/
def test_extensions (env : PgEnv) : Bool :=
  env.connectable && env.extensions.contains "uuid-ossp"

/-- `test_tables`: fails when the connection fails or any required table is
missing. -/
def test_tables (env : PgEnv) : Bool :=
  env.connectable && required_tables.all (fun t => env.tables.contains t)

/-- `test_views`: missing views are printed as a warning but the check still
returns `True`; only a connection failure makes it fail. -/
def test_views (env : PgEnv) : Bool :=
  env.connectable

/-- `test_functions`: missing helper functions are printed as a warning but
the check still returns `True`; only a connection failure makes it fail. -/
def test_functions (env : PgEnv) : Bool :=
  env.connectable

/-- `test_sample_query`: counts rows of three tables, so it fails when the
connection fails or any of those tables is missing. -/
def test_sample_query (env : PgEnv) : Bool :=
  env.connectable && env.tables.contains "models" &&
    env.tables.contains "cognitive_fusion_reactors" &&
    env.tables.contains "training_sessions"

/-- Conjunction of the six checks run by `main` ("every check passes"). -/
def allChecksPass (env : PgEnv) : Bool :=
  test_connection env && test_extensions env && test_tables env &&
    test_views env && test_functions env && test_sample_query env

/-- `main` of `test_connection.py`, reduced to its exit code: exit 1 when the
connection string is absent (falsy), otherwise run the six checks, count the
passes, and exit 0 exactly when the count equals the total.  (The
human-readable console reporting of the script is out of scope.) -/
def main (connection_string : Option String) (env : PgEnv) : Nat :=
  if pyTruthyStr connection_string = false then 1
  else
    let results := [test_connection env, test_extensions env, test_tables env,
      test_views env, test_functions env, test_sample_query env]
    let passed := (results.filter (fun b => b)).length
    if passed == results.length then 0 else 1

end TestConnection

/-- A well-formed UUID used as concrete input in witnesses. -/
def uuid0 : String := "123e4567-e89b-12d3-a456-426614174000"

/-- The empty database. -/
def emptyDB : DB :=
  { models := [], tensor_metadata := [], tensor_data := [],
    cognitive_fusion_reactors := [], reactor_models := [], v_reactor_status := [] }

/-- System state over the empty database with one free pooled connection. -/
def s0 : SysState := { committed := emptyDB, freeConns := 1 }

/-- Concrete server context for witnesses. -/
def ctx0 : ServerCtx := { fresh_uuid := uuid0, current_time := 5 }

/-- A concrete model row (status `created`) used in witnesses. -/
def model0 : ModelRow :=
  { model_id := uuid0, model_name := "example-gpt-small", model_type := "transformer",
    architecture_config := "cfg", version := "1.0.0", status := "created", created_at := 3 }

/-- System state whose database holds exactly `model0`. -/
def sM : SysState :=
  { committed := { emptyDB with models := [model0] }, freeConns := 1 }

/-- Concrete write statement used in witnesses. -/
def stmt0 : Stmt :=
  .insertReactor "example-ensemble-reactor" "ensemble" "weighted_average"

theorem execute_query_fst (ctx : ServerCtx) (s : SysState) (stmt : Stmt) :
    (execute_query ctx s stmt).1 = return_connection (get_connection s) := by
  cases h : execStmt ctx stmt (get_connection s).committed with
  | error e => simp [execute_query, h]
  | ok v =>
    obtain ⟨db2, rows, n⟩ := v
    simp [execute_query, h]

/-- Claim C1: every statement routed through the read-path convenience
operation `execute_query` leaves the committed database unchanged — there is
no commit on this path and the pending transaction is discarded when the
connection is returned.  In particular `create_model`, `create_tensor` and
`create_reactor`, which all issue their INSERT through `execute_query`,
never change the committed database. -/
theorem execute_query_never_commits (ctx : ServerCtx) (s : SysState) (stmt : Stmt) :
    (execute_query ctx s stmt).1.committed = s.committed ∧
    (∀ n t c v, (ModelRepository.create_model ctx s n t c v).1.committed = s.committed) ∧
    (∀ n t m sh d, (TensorRepository.create_tensor ctx s n t m sh d).1.committed = s.committed) ∧
    (∀ n t f, (ReactorRepository.create_reactor ctx s n t f).1.committed = s.committed) := by
  have hq : ∀ st : Stmt, (execute_query ctx s st).1.committed = s.committed := by
    intro st
    rw [execute_query_fst]
    rfl
  exact ⟨hq stmt, fun n t c v => hq _, fun n t m sh d => hq _, fun n t f => hq _⟩

/-- Claim C2: `execute_command` commits on success and returns the
affected-row count; on any failure it rolls back — the committed database is
unchanged — and re-raises the same error untranslated; in both cases the
connection is returned to the pool, so the free-connection count is
restored. -/
theorem execute_command_contract (ctx : ServerCtx) (s : SysState) (stmt : Stmt)
    (hpool : 0 < s.freeConns) :
    (execute_command ctx s stmt).1.freeConns = s.freeConns ∧
    (∀ db2 rows n, execStmt ctx stmt s.committed = .ok (db2, rows, n) →
      (execute_command ctx s stmt).1.committed = db2 ∧
      (execute_command ctx s stmt).2 = .ok n) ∧
    (∀ e, execStmt ctx stmt s.committed = .error e →
      (execute_command ctx s stmt).1.committed = s.committed ∧
      (execute_command ctx s stmt).2 = .error e) := by
  refine ⟨?_, ?_, ?_⟩
  · cases h : execStmt ctx stmt s.committed with
    | error e =>
      simp [execute_command, get_connection, return_connection, h]
      omega
    | ok v =>
      obtain ⟨db2, rows, n⟩ := v
      simp [execute_command, get_connection, return_connection, h]
      omega
  · intro db2 rows n h
    constructor <;> simp [execute_command, get_connection, return_connection, h]
  · intro e h
    constructor <;> simp [execute_command, get_connection, return_connection, h]

/-- Witness for C2: a concrete reactor INSERT on the empty database with one
free connection. -/
theorem execute_command_contract_witness :
    0 < s0.freeConns ∧
    ((execute_command ctx0 s0 stmt0).1.freeConns = s0.freeConns ∧
    (∀ db2 rows n, execStmt ctx0 stmt0 s0.committed = .ok (db2, rows, n) →
      (execute_command ctx0 s0 stmt0).1.committed = db2 ∧
      (execute_command ctx0 s0 stmt0).2 = .ok n) ∧
    (∀ e, execStmt ctx0 stmt0 s0.committed = .error e →
      (execute_command ctx0 s0 stmt0).1.committed = s0.committed ∧
      (execute_command ctx0 s0 stmt0).2 = .error e)) :=
  ⟨by decide, execute_command_contract ctx0 s0 stmt0 (by decide)⟩

theorem totalElements_eq_prod (shape : List Int) : totalElements shape = shape.prod := by
  simp [totalElements, List.prod_eq_foldl]

/-- Claim C3: the INSERT issued by `create_tensor` carries a total element
count equal to the product of all dimensions of the shape — so the row it
inserts (into the transaction state, for a well-formed model identifier)
records exactly that product — and the empty shape yields total element
count 1 (the empty product). -/
theorem create_tensor_total_elements (ctx : ServerCtx) (s : SysState)
    (n t m : String) (shape : List Int) (d : String)
    (hvalid : isValidUuid m = true) :
    TensorRepository.create_tensor_stmt n t m shape d =
      Stmt.insertTensorMeta n t m shape d shape.prod ∧
    totalElements [] = 1 ∧
    execStmt ctx (TensorRepository.create_tensor_stmt n t m shape d) s.committed =
      .ok ({ s.committed with tensor_metadata := s.committed.tensor_metadata ++
          [⟨ctx.fresh_uuid, n, t, m, shape, d, shape.prod⟩] },
        [.tensorIdField ctx.fresh_uuid], 1) := by
  refine ⟨?_, rfl, ?_⟩
  · simp [TensorRepository.create_tensor_stmt, totalElements_eq_prod]
  · simp [TensorRepository.create_tensor_stmt, execStmt, hvalid, totalElements_eq_prod]

/-- Witness for C3: the 2 x 3 shape on the empty database. -/
theorem create_tensor_total_elements_witness :
    isValidUuid uuid0 = true ∧
    (TensorRepository.create_tensor_stmt "token_embeddings" "embedding" uuid0 [2, 3] "float32" =
      Stmt.insertTensorMeta "token_embeddings" "embedding" uuid0 [2, 3] "float32"
        ([2, 3] : List Int).prod ∧
    totalElements [] = 1 ∧
    execStmt ctx0 (TensorRepository.create_tensor_stmt "token_embeddings" "embedding" uuid0
        [2, 3] "float32") s0.committed =
      .ok ({ s0.committed with tensor_metadata := s0.committed.tensor_metadata ++
          [⟨ctx0.fresh_uuid, "token_embeddings", "embedding", uuid0, [2, 3], "float32",
            ([2, 3] : List Int).prod⟩] },
        [.tensorIdField ctx0.fresh_uuid], 1)) :=
  ⟨by decide,
    create_tensor_total_elements ctx0 s0 "token_embeddings" "embedding" uuid0 [2, 3] "float32"
      (by decide)⟩

theorem upsertChunk_upsertChunk (row1 row2 : TensorDataRow)
    (h1 : row1.tensor_id = row2.tensor_id) (h2 : row1.chunk_index = row2.chunk_index)
    (l : List TensorDataRow) :
    upsertChunk row2 (upsertChunk row1 l) = upsertChunk row2 l := by
  have hk12 : keyEq row1 row2.tensor_id row2.chunk_index = true := by
    simp [keyEq, h1, h2]
  induction l with
  | nil =>
    simp [upsertChunk, hk12]
  | cons r rs ih =>
    by_cases h : keyEq r row1.tensor_id row1.chunk_index = true
    · have h' : keyEq r row2.tensor_id row2.chunk_index = true := by
        rw [← h1, ← h2]; exact h
      simp [upsertChunk, h, h', hk12]
    · simp only [Bool.not_eq_true] at h
      have h' : keyEq r row2.tensor_id row2.chunk_index = false := by
        rw [← h1, ← h2]; exact h
      simp [upsertChunk, h, h', ih]

theorem filter_upsertChunk (row : TensorDataRow) (l : List TensorDataRow)
    (huniq : (l.filter (fun r => keyEq r row.tensor_id row.chunk_index)).length ≤ 1) :
    (upsertChunk row l).filter (fun r => keyEq r row.tensor_id row.chunk_index) = [row] := by
  have hself : keyEq row row.tensor_id row.chunk_index = true := by
    simp [keyEq]
  induction l with
  | nil => simp [upsertChunk, List.filter_cons, hself]
  | cons r rs ih =>
    by_cases h : keyEq r row.tensor_id row.chunk_index = true
    · have hlen : (rs.filter (fun r2 => keyEq r2 row.tensor_id row.chunk_index)).length = 0 := by
        simp only [List.filter_cons, h, if_true, List.length_cons] at huniq
        omega
      have hemp : rs.filter (fun r2 => keyEq r2 row.tensor_id row.chunk_index) = [] :=
        List.length_eq_zero.mp hlen
      simp [upsertChunk, h, List.filter_cons, hself, hemp]
    · simp only [Bool.not_eq_true] at h
      simp only [List.filter_cons, h] at huniq
      simp only [Bool.false_eq_true, if_false] at huniq
      simp only [upsertChunk, h, Bool.false_eq_true, if_false, List.filter_cons]
      exact ih huniq

theorem store_tensor_data_committed (ctx : ServerCtx) (s : SysState) (tid : String)
    (d : List Nat) (k : Int) (hvalid : isValidUuid tid = true) :
    (TensorRepository.store_tensor_data ctx s tid d k).1.committed.tensor_data =
      upsertChunk ⟨tid, k, d, d.length⟩ s.committed.tensor_data := by
  simp [TensorRepository.store_tensor_data, execute_command, execStmt, hvalid,
    get_connection, return_connection]

/-- Claim C4: storing chunk data twice for the same (tensor identifier,
chunk index) key — given the unique-key constraint on the table, i.e. at
most one existing row with that key — leaves exactly one row with that key,
holding the second payload and its byte length, and the resulting table is
identical to the one produced by storing the second payload alone. -/
theorem store_tensor_data_overwrites (ctx1 ctx2 : ServerCtx) (s : SysState)
    (tid : String) (d1 d2 : List Nat) (k : Int)
    (hvalid : isValidUuid tid = true)
    (huniq : (s.committed.tensor_data.filter (fun r => keyEq r tid k)).length ≤ 1) :
    ((TensorRepository.store_tensor_data ctx2
        (TensorRepository.store_tensor_data ctx1 s tid d1 k).1 tid d2 k).1.committed.tensor_data.filter
          (fun r => keyEq r tid k) =
      [⟨tid, k, d2, d2.length⟩]) ∧
    (TensorRepository.store_tensor_data ctx2
        (TensorRepository.store_tensor_data ctx1 s tid d1 k).1 tid d2 k).1.committed.tensor_data =
      (TensorRepository.store_tensor_data ctx2 s tid d2 k).1.committed.tensor_data := by
  have hsame : upsertChunk ⟨tid, k, d2, d2.length⟩
      (upsertChunk ⟨tid, k, d1, d1.length⟩ s.committed.tensor_data) =
      upsertChunk ⟨tid, k, d2, d2.length⟩ s.committed.tensor_data :=
    upsertChunk_upsertChunk ⟨tid, k, d1, d1.length⟩ ⟨tid, k, d2, d2.length⟩ rfl rfl
      s.committed.tensor_data
  have e2 : (TensorRepository.store_tensor_data ctx2
      (TensorRepository.store_tensor_data ctx1 s tid d1 k).1 tid d2 k).1.committed.tensor_data =
      upsertChunk ⟨tid, k, d2, d2.length⟩
        (upsertChunk ⟨tid, k, d1, d1.length⟩ s.committed.tensor_data) := by
    rw [store_tensor_data_committed ctx2 _ tid d2 k hvalid,
      store_tensor_data_committed ctx1 s tid d1 k hvalid]
  constructor
  · rw [e2, hsame]
    exact filter_upsertChunk ⟨tid, k, d2, d2.length⟩ s.committed.tensor_data huniq
  · rw [e2, store_tensor_data_committed ctx2 s tid d2 k hvalid]
    exact hsame

/-- Witness for C4: two stores at the same key on the empty database. -/
theorem store_tensor_data_overwrites_witness :
    isValidUuid uuid0 = true ∧
    (s0.committed.tensor_data.filter (fun r => keyEq r uuid0 0)).length ≤ 1 ∧
    (((TensorRepository.store_tensor_data ctx0
        (TensorRepository.store_tensor_data ctx0 s0 uuid0 [1, 2, 3] 0).1 uuid0 [7] 0).1.committed.tensor_data.filter
          (fun r => keyEq r uuid0 0) =
      [⟨uuid0, 0, [7], 1⟩]) ∧
    (TensorRepository.store_tensor_data ctx0
        (TensorRepository.store_tensor_data ctx0 s0 uuid0 [1, 2, 3] 0).1 uuid0 [7] 0).1.committed.tensor_data =
      (TensorRepository.store_tensor_data ctx0 s0 uuid0 [7] 0).1.committed.tensor_data) :=
  ⟨by decide, by decide,
    store_tensor_data_overwrites ctx0 ctx0 s0 uuid0 [1, 2, 3] [7] 0 (by decide) (by decide)⟩

instance {e a : Type} [DecidableEq e] [DecidableEq a] :
    DecidableEq (Except e a) := fun x y =>
  match x, y with
  | .ok u, .ok v =>
    if h : u = v then .isTrue (h ▸ rfl) else .isFalse (fun hc => h (Except.ok.inj hc))
  | .error u, .error v =>
    if h : u = v then .isTrue (h ▸ rfl) else .isFalse (fun hc => h (Except.error.inj hc))
  | .ok _, .error _ => .isFalse (fun hc => Except.noConfusion hc)
  | .error _, .ok _ => .isFalse (fun hc => Except.noConfusion hc)

theorem get_model_eval (ctx : ServerCtx) (s : SysState) (mid : String)
    (hvalid : isValidUuid mid = true) :
    (ModelRepository.get_model ctx s mid).2 =
      .ok ((s.committed.models.filter (fun r => r.model_id == mid)).map Row.model).head? := by
  simp [ModelRepository.get_model, execute_query, execStmt, hvalid,
    get_connection, return_connection, Except.map, List.head?_map, List.filter_head?]

theorem get_reactor_status_eval (ctx : ServerCtx) (s : SysState) (rid : String)
    (hvalid : isValidUuid rid = true) :
    (ReactorRepository.get_reactor_status ctx s rid).2 =
      .ok ((s.committed.v_reactor_status.filter (fun r => r.reactor_id == rid)).map
        Row.reactorStatus).head? := by
  simp [ReactorRepository.get_reactor_status, execute_query, execStmt, hvalid,
    get_connection, return_connection, Except.map, List.head?_map, List.filter_head?]

/-- Counterexample to claim C5 as stated: the identifier below matches no
row of the (empty) database, yet `get_model` and `get_reactor_status`
surface a driver-level error instead of the absence indicator `None`,
because the identifier is not a well-formed UUID. -/
theorem get_model_malformed_counterexample :
    s0.committed.models.filter (fun r => r.model_id == "not-a-uuid") = [] ∧
    (ModelRepository.get_model ctx0 s0 "not-a-uuid").2 ≠ .ok (none : Option Row) ∧
    (ModelRepository.get_model ctx0 s0 "not-a-uuid").2 =
      .error (.invalidUuid "not-a-uuid") ∧
    (ReactorRepository.get_reactor_status ctx0 s0 "not-a-uuid").2 =
      .error (.invalidUuid "not-a-uuid") := by
  decide

/-- Claim C5 (amended): for every WELL-FORMED identifier that matches no
row, `get_model` and `get_reactor_status` return the explicit absence
indicator `None` rather than a driver-level error, and when exactly one row
matches they return that single record.  (A malformed identifier instead
raises a driver-level error, see the counterexample.) -/
theorem get_absent_returns_none (ctx : ServerCtx) (s : SysState) (mid : String)
    (hvalid : isValidUuid mid = true) :
    (s.committed.models.filter (fun r => r.model_id == mid) = [] →
      (ModelRepository.get_model ctx s mid).2 = .ok none) ∧
    (∀ r, s.committed.models.filter (fun r2 => r2.model_id == mid) = [r] →
      (ModelRepository.get_model ctx s mid).2 = .ok (some (Row.model r))) ∧
    (s.committed.v_reactor_status.filter (fun r => r.reactor_id == mid) = [] →
      (ReactorRepository.get_reactor_status ctx s mid).2 = .ok none) ∧
    (∀ r, s.committed.v_reactor_status.filter (fun r2 => r2.reactor_id == mid) = [r] →
      (ReactorRepository.get_reactor_status ctx s mid).2 =
        .ok (some (Row.reactorStatus r))) := by
  refine ⟨?_, ?_, ?_, ?_⟩
  · intro h
    rw [get_model_eval ctx s mid hvalid, h]
    rfl
  · intro r h
    rw [get_model_eval ctx s mid hvalid, h]
    rfl
  · intro h
    rw [get_reactor_status_eval ctx s mid hvalid, h]
    rfl
  · intro r h
    rw [get_reactor_status_eval ctx s mid hvalid, h]
    rfl

/-- Witness for the amended C5: a well-formed identifier absent from the
empty database yields `None` on both reads. -/
theorem get_absent_returns_none_witness :
    isValidUuid uuid0 = true ∧
    (ModelRepository.get_model ctx0 s0 uuid0).2 = .ok none ∧
    (ReactorRepository.get_reactor_status ctx0 s0 uuid0).2 = .ok none :=
  ⟨by decide,
    (get_absent_returns_none ctx0 s0 uuid0 (by decide)).1 (by decide),
    (get_absent_returns_none ctx0 s0 uuid0 (by decide)).2.2.1 (by decide)⟩

/-- Claim C10: the identifier is cast to `uuid` inside the SQL statement, so
a malformed identifier makes `get_model` and `get_reactor_status` raise a
driver-level error rather than return the absence indicator. -/
theorem get_by_malformed_id_raises (ctx : ServerCtx) (s : SysState) (mid : String)
    (hmal : isValidUuid mid = false) :
    (ModelRepository.get_model ctx s mid).2 = .error (.invalidUuid mid) ∧
    (ReactorRepository.get_reactor_status ctx s mid).2 = .error (.invalidUuid mid) := by
  constructor <;>
    simp [ModelRepository.get_model, ReactorRepository.get_reactor_status,
      execute_query, execStmt, hmal, get_connection, return_connection, Except.map]

/-- Witness for C10 at a concrete malformed identifier. -/
theorem get_by_malformed_id_raises_witness :
    isValidUuid "xyz" = false ∧
    ((ModelRepository.get_model ctx0 s0 "xyz").2 = .error (.invalidUuid "xyz") ∧
     (ReactorRepository.get_reactor_status ctx0 s0 "xyz").2 =
       .error (.invalidUuid "xyz")) :=
  ⟨by decide, get_by_malformed_id_raises ctx0 s0 "xyz" (by decide)⟩

theorem list_models_truthy_eval (ctx : ServerCtx) (s : SysState) (st : String)
    (hst : st ≠ "") :
    (ModelRepository.list_models ctx s (some st)).2 =
      .ok ((List.insertionSort createdDesc
        (s.committed.models.filter (fun r => r.status == st))).map Row.model) := by
  have htr : pyTruthyStr (some st) = true := by
    simp [pyTruthyStr, hst]
  simp [ModelRepository.list_models, htr, execute_query, execStmt,
    get_connection, return_connection]

theorem list_models_none_eval (ctx : ServerCtx) (s : SysState) :
    (ModelRepository.list_models ctx s none).2 =
      .ok ((List.insertionSort createdDesc s.committed.models).map Row.model) := by
  simp [ModelRepository.list_models, pyTruthyStr, execute_query, execStmt,
    get_connection, return_connection]

/-- Counterexample to claim C6 as stated: quantified over EVERY status
value, it fails at the empty string.  The empty string is falsy in Python,
so `list_models` with that filter returns all rows — here a model whose
status differs from the filter — instead of exactly the rows whose status
equals the filter (there are none). -/
theorem list_models_empty_status_counterexample :
    (ModelRepository.list_models ctx0 sM (some "")).2 = .ok [Row.model model0] ∧
    model0.status ≠ "" ∧
    sM.committed.models.filter (fun r => r.status == "") = [] := by
  decide

/-- Claim C6 (amended): for every NON-EMPTY status value, `list_models` with
that filter returns exactly the rows whose status equals the filter (a
permutation of them), ordered by creation time descending; without a filter
it returns all rows in the same descending creation-time order.  (The empty
string is falsy and behaves as no filter, see the counterexample.) -/
theorem list_models_filter_and_order (ctx : ServerCtx) (s : SysState) (st : String)
    (hst : st ≠ "") :
    (∃ l : List ModelRow, (ModelRepository.list_models ctx s (some st)).2 = .ok (l.map Row.model) ∧
      l.Perm (s.committed.models.filter (fun r => r.status == st)) ∧
      l.Sorted createdDesc) ∧
    (∃ l : List ModelRow, (ModelRepository.list_models ctx s none).2 = .ok (l.map Row.model) ∧
      l.Perm s.committed.models ∧ l.Sorted createdDesc) := by
  constructor
  · refine ⟨List.insertionSort createdDesc
      (s.committed.models.filter (fun r => r.status == st)), ?_, ?_, ?_⟩
    · exact list_models_truthy_eval ctx s st hst
    · exact List.perm_insertionSort createdDesc _
    · exact List.sorted_insertionSort createdDesc _
  · refine ⟨List.insertionSort createdDesc s.committed.models, ?_, ?_, ?_⟩
    · exact list_models_none_eval ctx s
    · exact List.perm_insertionSort createdDesc _
    · exact List.sorted_insertionSort createdDesc _

/-- Witness for the amended C6: the status filter `created` on a one-model
database. -/
theorem list_models_filter_and_order_witness :
    ("created" : String) ≠ "" ∧
    ((∃ l : List ModelRow, (ModelRepository.list_models ctx0 sM (some "created")).2 = .ok (l.map Row.model) ∧
      l.Perm (sM.committed.models.filter (fun r => r.status == "created")) ∧
      l.Sorted createdDesc) ∧
    (∃ l : List ModelRow, (ModelRepository.list_models ctx0 sM none).2 = .ok (l.map Row.model) ∧
      l.Perm sM.committed.models ∧ l.Sorted createdDesc)) :=
  ⟨by decide, list_models_filter_and_order ctx0 sM "created" (by decide)⟩

/-- Claim C9: `list_models` applies the status filter only when the status
argument is truthy — with a falsy status (None or the empty string) the call
is identical to the unfiltered call and returns all models. -/
theorem list_models_falsy_status_unfiltered (ctx : ServerCtx) (s : SysState)
    (status : Option String) (hfalsy : pyTruthyStr status = false) :
    ModelRepository.list_models ctx s status = ModelRepository.list_models ctx s none ∧
    (∃ l : List ModelRow, (ModelRepository.list_models ctx s status).2 = .ok (l.map Row.model) ∧
      l.Perm s.committed.models) := by
  have heq : ModelRepository.list_models ctx s status =
      ModelRepository.list_models ctx s none := by
    have hnone : pyTruthyStr (none : Option String) = false := rfl
    simp [ModelRepository.list_models, hfalsy, hnone]
  refine ⟨heq, List.insertionSort createdDesc s.committed.models, ?_, ?_⟩
  · rw [heq]
    exact list_models_none_eval ctx s
  · exact List.perm_insertionSort createdDesc _

/-- Witness for C9: the empty-string status on a one-model database. -/
theorem list_models_falsy_status_unfiltered_witness :
    pyTruthyStr (some "") = false ∧
    (ModelRepository.list_models ctx0 sM (some "") = ModelRepository.list_models ctx0 sM none ∧
    (∃ l : List ModelRow, (ModelRepository.list_models ctx0 sM (some "")).2 = .ok (l.map Row.model) ∧
      l.Perm sM.committed.models)) :=
  ⟨by decide, list_models_falsy_status_unfiltered ctx0 sM (some "") (by decide)⟩

/-- A connectable environment missing the `transformer_layers` table, used
as concrete input in the C8 witness. -/
def env0 : PgEnv :=
  { connectable := true,
    extensions := ["uuid-ossp", "vector"],
    tables := required_tables.filter (fun t => !(t == "transformer_layers")),
    views := required_views,
    functions := ["calculate_model_parameters"] }

/-- Claim C7: constructing the connection-pool manager with no explicit
connection string and no NEON_DATABASE_URL value (absent or empty) raises
the fatal configuration error at construction, before any pool is created
(the error result carries no pool object); when a truthy connection string
is available from either source, the pool is created with bounds
minconn 1 and maxconn 20. -/
theorem neon_init_config (s : String) (env : Option String) (hs : s ≠ "") :
    NeonDBConnection.init none none = .error .missingConnectionString ∧
    NeonDBConnection.init none (some "") = .error .missingConnectionString ∧
    NeonDBConnection.init (some "") none = .error .missingConnectionString ∧
    NeonDBConnection.init (some s) env =
      .ok { connection_string := s, minconn := 1, maxconn := 20 } ∧
    NeonDBConnection.init none (some s) =
      .ok { connection_string := s, minconn := 1, maxconn := 20 } := by
  have hb : (s == "") = false := by
    simp [hs]
  refine ⟨rfl, rfl, rfl, ?_, ?_⟩ <;>
    simp [NeonDBConnection.init, pyOrStr, pyTruthyStr, hb]

/-- Witness for C7 at a concrete connection string. -/
theorem neon_init_config_witness :
    ("postgresql://example" : String) ≠ "" ∧
    (NeonDBConnection.init none none = .error .missingConnectionString ∧
    NeonDBConnection.init none (some "") = .error .missingConnectionString ∧
    NeonDBConnection.init (some "") none = .error .missingConnectionString ∧
    NeonDBConnection.init (some "postgresql://example") none =
      .ok { connection_string := "postgresql://example", minconn := 1, maxconn := 20 } ∧
    NeonDBConnection.init none (some "postgresql://example") =
      .ok { connection_string := "postgresql://example", minconn := 1, maxconn := 20 }) :=
  ⟨by decide, neon_init_config "postgresql://example" none (by decide)⟩

theorem passCount_eq (b1 b2 b3 b4 b5 b6 : Bool) :
    (if ((List.filter (fun b => b) [b1, b2, b3, b4, b5, b6]).length ==
        ([b1, b2, b3, b4, b5, b6] : List Bool).length) = true then (0 : Nat) else 1) =
      if (b1 && b2 && b3 && b4 && b5 && b6) = true then 0 else 1 := by
  cases b1 <;> cases b2 <;> cases b3 <;> cases b4 <;> cases b5 <;> cases b6 <;> rfl

theorem main_eq_allChecks (cs : Option String) (env : PgEnv)
    (h : pyTruthyStr cs = true) :
    TestConnection.main cs env =
      if TestConnection.allChecksPass env = true then 0 else 1 := by
  unfold TestConnection.main
  rw [if_neg (by simp [h])]
  exact passCount_eq (TestConnection.test_connection env) (TestConnection.test_extensions env)
    (TestConnection.test_tables env) (TestConnection.test_views env)
    (TestConnection.test_functions env) (TestConnection.test_sample_query env)

/-- Claim C8: in the diagnostic script a missing required table makes the
tables check fail, while missing views or missing helper functions leave
their checks passing (given the connection itself succeeds); the exit code
is 0 exactly when every check passes, and 1 when the connection string is
absent or any check fails. -/
theorem diagnostic_script_exit (cs : Option String) (env : PgEnv) :
    (∀ t, t ∈ required_tables → env.tables.contains t = false →
      TestConnection.test_tables env = false) ∧
    (env.connectable = true →
      TestConnection.test_views env = true ∧ TestConnection.test_functions env = true) ∧
    (pyTruthyStr cs = false → TestConnection.main cs env = 1) ∧
    (pyTruthyStr cs = true →
      (TestConnection.main cs env = 0 ↔ TestConnection.allChecksPass env = true)) ∧
    (pyTruthyStr cs = true → TestConnection.allChecksPass env = false →
      TestConnection.main cs env = 1) := by
  refine ⟨?_, ?_, ?_, ?_, ?_⟩
  · intro t ht hmiss
    cases hall : required_tables.all (fun t2 => env.tables.contains t2) with
    | false =>
      show (env.connectable && required_tables.all (fun t2 => env.tables.contains t2)) = false
      rw [hall, Bool.and_false]
    | true =>
      have hcontr := List.all_eq_true.mp hall t ht
      rw [hmiss] at hcontr
      exact absurd hcontr (by simp)
  · intro hconn
    exact ⟨by simp [TestConnection.test_views, hconn],
      by simp [TestConnection.test_functions, hconn]⟩
  · intro hcs
    simp [TestConnection.main, hcs]
  · intro hcs
    rw [main_eq_allChecks cs env hcs]
    by_cases hall : TestConnection.allChecksPass env = true
    · simp [hall]
    · simp [hall]
  · intro hcs hfail
    rw [main_eq_allChecks cs env hcs, hfail]
    simp

/-- Witness for C8: a connectable environment missing the
`transformer_layers` table, exercised once with a present connection string
and once with an absent one. -/
theorem diagnostic_script_exit_witness :
    TestConnection.test_tables env0 = false ∧
    TestConnection.test_views env0 = true ∧
    TestConnection.test_functions env0 = true ∧
    TestConnection.main (none : Option String) env0 = 1 ∧
    (TestConnection.main (some "postgresql://db") env0 = 0 ↔
      TestConnection.allChecksPass env0 = true) ∧
    TestConnection.main (some "postgresql://db") env0 = 1 :=
  ⟨(diagnostic_script_exit (some "postgresql://db") env0).1 "transformer_layers"
      (by decide) (by decide),
    ((diagnostic_script_exit (some "postgresql://db") env0).2.1 (by decide)).1,
    ((diagnostic_script_exit (some "postgresql://db") env0).2.1 (by decide)).2,
    (diagnostic_script_exit (none : Option String) env0).2.2.1 (by decide),
    (diagnostic_script_exit (some "postgresql://db") env0).2.2.2.1 (by decide),
    (diagnostic_script_exit (some "postgresql://db") env0).2.2.2.2 (by decide) (by decide)⟩

end ArcHalo